import Mathlib

/-!
# MAX98390 GPIO power enable driver

Shallow embedding of `src/audio-config/max98390_gpio_enable.c`.

The driver consists of two callbacks, `max98390_gpio_probe` and
`max98390_gpio_remove`.  Both only talk to kernel services (device managed
allocation, GPIO consumer interface, `msleep`, the device log).  Those
services are modelled by an environment `Env` that fixes their outcomes and
by a trace of `Event`s that records every call in program order.

Pointers are 64 bit machine words (`Nat`), error pointers follow
`linux/err.h`, and `int` / `long` conversions are explicit.
-/

namespace Max98390

/-! ## Kernel ABI used by the driver (`linux/err.h`, `errno`) -/

/-- Largest errno an error pointer can carry (`MAX_ERRNO` in `linux/err.h`). -/
def MAX_ERRNO : Nat := 4095

/-- Out of memory (`ENOMEM`). -/
def ENOMEM : Int := 12

/-- Driver requests probe retry (`EPROBE_DEFER`). -/
def EPROBE_DEFER : Int := 517

/-- Number of values of an `unsigned long` / pointer word. -/
def WORD : Nat := 2 ^ 64

/-- Encoding of `ERR_PTR(error)`: the `long` reinterpreted as a pointer word. -/
def ERR_PTR (error : Int) : Nat := (error % (WORD : Int)).toNat

/-- Test `IS_ERR(ptr)`: `(unsigned long)ptr >= (unsigned long)-MAX_ERRNO`. -/
def IS_ERR (ptr : Nat) : Bool := decide (WORD - MAX_ERRNO ≤ ptr % WORD)

/-- Value `PTR_ERR(ptr)`: the pointer word reinterpreted as a signed `long`. -/
def PTR_ERR (ptr : Nat) : Int :=
  if ptr % WORD < 2 ^ 63 then ((ptr % WORD : Nat) : Int) else ((ptr % WORD : Nat) : Int) - (WORD : Int)

/-- Conversion of a `long` to `int` (two's complement truncation to 32 bit). -/
def long_to_int (x : Int) : Int := (x + 2 ^ 31) % 2 ^ 32 - 2 ^ 31

/-- A positive errno in the range an error pointer can carry. -/
structure Errno where
  code : Nat
  pos : 0 < code
  le_max : code ≤ MAX_ERRNO
deriving DecidableEq

/-- A valid `struct gpio_desc *`: a non-NULL pointer word outside the error range. -/
structure gpio_desc where
  addr : Nat
  nonnull : 0 < addr
  valid : addr < WORD - MAX_ERRNO
deriving DecidableEq

/-- Request flags of the GPIO consumer interface (`enum gpiod_flags`). -/
inductive gpiod_flags where
  | GPIOD_ASIS
  | GPIOD_IN
  | GPIOD_OUT_LOW
  | GPIOD_OUT_HIGH
deriving DecidableEq, Repr

/-- Outcome of one GPIO lookup by the provider: a descriptor or an errno. -/
inductive Lookup where
  | found (desc : gpio_desc)
  | failed (e : Errno)
deriving DecidableEq

/-- Severity of a device log line (`dev_info` / `dev_err`). -/
inductive LogLevel where
  | info
  | err
deriving DecidableEq, Repr

/-- One call of the driver into a kernel service, with its arguments. -/
inductive Event where
  | log (level : LogLevel) (fmt : String) (arg : Option Int)
  | kzalloc (ok : Bool)
  | gpiod_get_index (con_id : String) (idx : Nat) (flags : gpiod_flags) (outcome : Lookup)
  | gpiod_set_value (desc : Nat) (value : Int)
  | gpiod_set_value_cansleep (desc : Nat) (value : Int)
  | msleep (msecs : Nat)
deriving DecidableEq

/-! ## Data model of the driver -/

/-- Per binding state, `struct max98390_gpio_data` (pointer fields as words, 0 is NULL). -/
structure max98390_gpio_data where
  enable_gpio : Nat
  dev : Nat
deriving DecidableEq, Repr

/-- The platform device: the address of its embedded `struct device` and its
driver data pointer (`none` is NULL, `some d` points to an object with contents `d`). -/
structure platform_device where
  dev : Nat
  drvdata : Option max98390_gpio_data
deriving DecidableEq, Repr

/-- Outcomes of the kernel services during one callback. -/
structure Env where
  kzalloc_ok : Bool
  gpiod_lookup : String → Nat → gpiod_flags → Lookup

/-- Machine state threaded through a callback: the device and the calls made so far. -/
structure World where
  pdev : platform_device
  trace : List Event

/-! ## Kernel services -/

/-- Append one event to the trace. -/
def World.emit (w : World) (e : Event) : World :=
  { w with trace := w.trace ++ [e] }

/-- Service `dev_info(&pdev->dev, fmt, ...)`. -/
def dev_info (w : World) (fmt : String) (arg : Option Int) : World :=
  w.emit (Event.log LogLevel.info fmt arg)

/-- Service `dev_err(&pdev->dev, fmt, ...)`. -/
def dev_err (w : World) (fmt : String) (arg : Option Int) : World :=
  w.emit (Event.log LogLevel.err fmt arg)

/-- Service `devm_kzalloc`: a zero filled object, or NULL when the allocation fails. -/
def devm_kzalloc (env : Env) (w : World) : Option max98390_gpio_data × World :=
  if env.kzalloc_ok then
    (some { enable_gpio := 0, dev := 0 }, w.emit (Event.kzalloc true))
  else
    (none, w.emit (Event.kzalloc false))

/-- Service `platform_set_drvdata(pdev, data)`. -/
def platform_set_drvdata (w : World) (data : max98390_gpio_data) : World :=
  { w with pdev := { w.pdev with drvdata := some data } }

/-- Service `platform_get_drvdata(pdev)`. -/
def platform_get_drvdata (w : World) : Option max98390_gpio_data :=
  w.pdev.drvdata

/-- Service `devm_gpiod_get_index(dev, con_id, idx, flags)`: the descriptor
pointer on success, `ERR_PTR(-errno)` on failure; never NULL. -/
def devm_gpiod_get_index (env : Env) (w : World) (con_id : String) (idx : Nat)
    (flags : gpiod_flags) : Nat × World :=
  let w1 := w.emit (Event.gpiod_get_index con_id idx flags (env.gpiod_lookup con_id idx flags))
  match env.gpiod_lookup con_id idx flags with
  | Lookup.found desc => (desc.addr, w1)
  | Lookup.failed e => (ERR_PTR (-(e.code : Int)), w1)

/-- Service `gpiod_set_value_cansleep(desc, value)`. -/
def gpiod_set_value_cansleep (w : World) (desc : Nat) (value : Int) : World :=
  w.emit (Event.gpiod_set_value_cansleep desc value)

/-- Service `msleep(msecs)`. -/
def msleep (w : World) (msecs : Nat) : World :=
  w.emit (Event.msleep msecs)

/-! ## The probe callback -/

/-- Result of one run of probe: the returned `int`, the device and the calls made. -/
structure ProbeRun where
  ret : Int
  pdev : platform_device
  trace : List Event

/-- Store through `data->enable_gpio = gpio`; `data` is the object the driver
data pointer refers to, so the store is visible through the device. -/
def store_enable_gpio (w : World) (data : max98390_gpio_data) (gpio : Nat) :
    max98390_gpio_data × World :=
  let data1 := { data with enable_gpio := gpio }
  (data1, { w with pdev := { w.pdev with drvdata := some data1 } })

/-- Lines 65 to 75 of the source: the common tail of probe once `gpio` holds a descriptor. -/
def probe_enable (w : World) (data : max98390_gpio_data) (gpio : Nat) : ProbeRun :=
  let (data1, w1) := store_enable_gpio w data gpio
  let w2 := gpiod_set_value_cansleep w1 data1.enable_gpio 1
  let w3 := dev_info w2 "MAX98390 power GPIO set to HIGH\n" none
  let w4 := msleep w3 10
  let w5 := dev_info w4 "MAX98390 GPIO enable driver initialized successfully\n" none
  { ret := 0, pdev := w5.pdev, trace := w5.trace }

/-- Callback `max98390_gpio_probe(pdev)`. -/
def max98390_gpio_probe (env : Env) (pdev : platform_device) : ProbeRun :=
  let w0 : World := { pdev := pdev, trace := [] }
  let w1 := dev_info w0 "Probing MAX98390 GPIO enable driver\n" none
  match devm_kzalloc env w1 with
  | (none, w2) => { ret := -ENOMEM, pdev := w2.pdev, trace := w2.trace }
  | (some data0, w2) =>
    let data := { data0 with dev := w2.pdev.dev }
    let w3 := platform_set_drvdata w2 data
    let (gpio, w4) := devm_gpiod_get_index env w3 "enable" 0 gpiod_flags.GPIOD_OUT_LOW
    if IS_ERR gpio then
      let ret := long_to_int (PTR_ERR gpio)
      if ret = -EPROBE_DEFER then
        let w5 := dev_info w4 "GPIO not ready, deferring probe\n" none
        { ret := ret, pdev := w5.pdev, trace := w5.trace }
      else
        let w5 := dev_err w4 "Failed to get enable GPIO: %d\n" (some ret)
        let (gpio2, w6) := devm_gpiod_get_index env w5 "amp-enable" 0 gpiod_flags.GPIOD_OUT_LOW
        if IS_ERR gpio2 then
          let w7 := dev_err w6 "Failed to get amp-enable GPIO: %ld\n" (some (PTR_ERR gpio2))
          { ret := long_to_int (PTR_ERR gpio2), pdev := w7.pdev, trace := w7.trace }
        else
          probe_enable w6 data gpio2
    else
      probe_enable w4 data gpio

/-! ## The remove callback -/

/-- Result of one run of remove: the returned `int`, or `none` when the run
dereferences a NULL pointer and never returns; the device and the calls made. -/
structure RemoveRun where
  ret : Option Int
  pdev : platform_device
  trace : List Event

/-- Callback `max98390_gpio_remove(pdev)`. -/
def max98390_gpio_remove (pdev : platform_device) : RemoveRun :=
  let w0 : World := { pdev := pdev, trace := [] }
  match platform_get_drvdata w0 with
  | none => { ret := none, pdev := w0.pdev, trace := w0.trace }
  | some data =>
    let w1 :=
      if data.enable_gpio ≠ 0 then
        dev_info w0 "MAX98390 GPIO enable driver removed (keeping power on)\n" none
      else
        w0
    { ret := some 0, pdev := w1.pdev, trace := w1.trace }

/-! ## Observations on traces -/

/-- The pointer word is a usable descriptor: neither NULL nor an error pointer
(the setters of the consumer interface do nothing on any other word). -/
def valid_desc (desc : Nat) : Bool :=
  decide (desc ≠ 0) && !IS_ERR desc

/-- The logical value an event drives onto the line behind descriptor `desc`,
when it drives that line at all: a successful request as output fixes the
initial value, a setter on a usable descriptor writes `!!value`. -/
def Event.drives (desc : Nat) : Event → Option Int
  | Event.gpiod_get_index _ _ flags (Lookup.found d) =>
    if d.addr = desc then
      match flags with
      | gpiod_flags.GPIOD_OUT_LOW => some 0
      | gpiod_flags.GPIOD_OUT_HIGH => some 1
      | _ => none
    else none
  | Event.gpiod_set_value d v =>
    if d = desc ∧ valid_desc d = true then some (if v = 0 then 0 else 1) else none
  | Event.gpiod_set_value_cansleep d v =>
    if d = desc ∧ valid_desc d = true then some (if v = 0 then 0 else 1) else none
  | _ => none

/-- The logical output of the line behind `desc` after the calls of `trace`,
replayed in order; `none` while nothing has driven the line. -/
def line_value (desc : Nat) (trace : List Event) : Option Int :=
  trace.foldl (fun cur e => match e.drives desc with
    | some v => some v
    | none => cur) none

/-- The event sets a GPIO value (either setter). -/
def Event.is_gpio_write : Event → Bool
  | Event.gpiod_set_value _ _ => true
  | Event.gpiod_set_value_cansleep _ _ => true
  | _ => false

/-- The event is a GPIO lookup. -/
def Event.is_lookup : Event → Bool
  | Event.gpiod_get_index _ _ _ _ => true
  | _ => false

/-- The event is a GPIO lookup under the consumer name `name`. -/
def Event.is_lookup_of (name : String) : Event → Bool
  | Event.gpiod_get_index con_id _ _ _ => decide (con_id = name)
  | _ => false

/-- The event is a blocking delay. -/
def Event.is_delay : Event → Bool
  | Event.msleep _ => true
  | _ => false

/-- The event is visible to the hardware: a lookup, a GPIO write or a delay
(log lines and the memory allocation are not). -/
def Event.is_hw (e : Event) : Bool :=
  e.is_lookup || e.is_gpio_write || e.is_delay

/-- The hardware visible calls of a trace, in order. -/
def hw_effects (trace : List Event) : List Event :=
  trace.filter Event.is_hw

/-- The descriptors handed out by the successful lookups of a trace, in order. -/
def acquired (trace : List Event) : List gpio_desc :=
  trace.filterMap (fun e => match e with
    | Event.gpiod_get_index _ _ _ (Lookup.found d) => some d
    | _ => none)

/-- The primary lookup (`"enable"`, index 0, output low) was made in the run
with outcome `o`. -/
def primary_lookup (r : ProbeRun) (o : Lookup) : Prop :=
  Event.gpiod_get_index "enable" 0 gpiod_flags.GPIOD_OUT_LOW o ∈ r.trace

/-- The fallback lookup (`"amp-enable"`, index 0, output low) was made in the
run with outcome `o`. -/
def fallback_lookup (r : ProbeRun) (o : Lookup) : Prop :=
  Event.gpiod_get_index "amp-enable" 0 gpiod_flags.GPIOD_OUT_LOW o ∈ r.trace

/-- The allocation of the per binding state was attempted in the run with outcome `ok`. -/
def allocation (r : ProbeRun) (ok : Bool) : Prop :=
  Event.kzalloc ok ∈ r.trace

/-! ## Concrete inputs -/

/-- A GPIO descriptor at a kernel address. -/
def desc_a : gpio_desc := ⟨0xffff888004a1c000, by decide, by decide⟩

/-- Errno `ENOENT`. -/
def errno_ENOENT : Errno := ⟨2, by decide, by decide⟩

/-- Errno `ENODEV`. -/
def errno_ENODEV : Errno := ⟨19, by decide, by decide⟩

/-- Errno `EPROBE_DEFER`. -/
def errno_EPROBE_DEFER : Errno := ⟨517, by decide, by decide⟩

/-- A device that was never probed. -/
def pdev_fresh : platform_device := { dev := 0xffff888003f20010, drvdata := none }

/-- The allocation fails. -/
def env_oom : Env :=
  { kzalloc_ok := false, gpiod_lookup := fun _ _ _ => Lookup.found desc_a }

/-- The name `"enable"` resolves. -/
def env_primary : Env :=
  { kzalloc_ok := true,
    gpiod_lookup := fun con_id _ _ =>
      if con_id = "enable" then Lookup.found desc_a else Lookup.failed errno_ENOENT }

/-- The provider of `"enable"` is not ready. -/
def env_defer : Env :=
  { kzalloc_ok := true,
    gpiod_lookup := fun con_id _ _ =>
      if con_id = "enable" then Lookup.failed errno_EPROBE_DEFER else Lookup.found desc_a }

/-- Only the name `"amp-enable"` resolves. -/
def env_fallback : Env :=
  { kzalloc_ok := true,
    gpiod_lookup := fun con_id _ _ =>
      if con_id = "amp-enable" then Lookup.found desc_a else Lookup.failed errno_ENOENT }

/-- Neither name resolves: `"enable"` gives `ENOENT`, `"amp-enable"` gives `ENODEV`. -/
def env_none : Env :=
  { kzalloc_ok := true,
    gpiod_lookup := fun con_id _ _ =>
      if con_id = "amp-enable" then Lookup.failed errno_ENODEV else Lookup.failed errno_ENOENT }

/-! ## The five paths through probe -/

/-- Calls made when the allocation fails. -/
def trace_oom : List Event :=
  [Event.log LogLevel.info "Probing MAX98390 GPIO enable driver\n" none,
   Event.kzalloc false]

/-- Calls made when `"enable"` resolves to `d`. -/
def trace_primary (d : gpio_desc) : List Event :=
  [Event.log LogLevel.info "Probing MAX98390 GPIO enable driver\n" none,
   Event.kzalloc true,
   Event.gpiod_get_index "enable" 0 gpiod_flags.GPIOD_OUT_LOW (Lookup.found d),
   Event.gpiod_set_value_cansleep d.addr 1,
   Event.log LogLevel.info "MAX98390 power GPIO set to HIGH\n" none,
   Event.msleep 10,
   Event.log LogLevel.info "MAX98390 GPIO enable driver initialized successfully\n" none]

/-- Calls made when `"enable"` fails with the deferral errno `e`. -/
def trace_defer (e : Errno) : List Event :=
  [Event.log LogLevel.info "Probing MAX98390 GPIO enable driver\n" none,
   Event.kzalloc true,
   Event.gpiod_get_index "enable" 0 gpiod_flags.GPIOD_OUT_LOW (Lookup.failed e),
   Event.log LogLevel.info "GPIO not ready, deferring probe\n" none]

/-- Calls made when `"enable"` fails with `e` and `"amp-enable"` resolves to `d`. -/
def trace_fallback (e : Errno) (d : gpio_desc) : List Event :=
  [Event.log LogLevel.info "Probing MAX98390 GPIO enable driver\n" none,
   Event.kzalloc true,
   Event.gpiod_get_index "enable" 0 gpiod_flags.GPIOD_OUT_LOW (Lookup.failed e),
   Event.log LogLevel.err "Failed to get enable GPIO: %d\n" (some (-(e.code : Int))),
   Event.gpiod_get_index "amp-enable" 0 gpiod_flags.GPIOD_OUT_LOW (Lookup.found d),
   Event.gpiod_set_value_cansleep d.addr 1,
   Event.log LogLevel.info "MAX98390 power GPIO set to HIGH\n" none,
   Event.msleep 10,
   Event.log LogLevel.info "MAX98390 GPIO enable driver initialized successfully\n" none]

/-- Calls made when `"enable"` fails with `e` and `"amp-enable"` fails with `e2`. -/
def trace_none (e e2 : Errno) : List Event :=
  [Event.log LogLevel.info "Probing MAX98390 GPIO enable driver\n" none,
   Event.kzalloc true,
   Event.gpiod_get_index "enable" 0 gpiod_flags.GPIOD_OUT_LOW (Lookup.failed e),
   Event.log LogLevel.err "Failed to get enable GPIO: %d\n" (some (-(e.code : Int))),
   Event.gpiod_get_index "amp-enable" 0 gpiod_flags.GPIOD_OUT_LOW (Lookup.failed e2),
   Event.log LogLevel.err "Failed to get amp-enable GPIO: %ld\n" (some (-(e2.code : Int)))]

/-- The device after probe got past the allocation: its driver data points to
an object whose `enable_gpio` is `gpio` and whose `dev` is the device. -/
def bound_pdev (pdev : platform_device) (gpio : Nat) : platform_device :=
  { dev := pdev.dev, drvdata := some { enable_gpio := gpio, dev := pdev.dev } }

/-- The result of probe as the specification words it, from the outcome of the
allocation, of the primary lookup and of the fallback lookup: out of memory if
the allocation fails; otherwise success if the primary lookup succeeds;
otherwise deferral if the primary errno is `EPROBE_DEFER`; otherwise success if
the fallback lookup succeeds; otherwise the errno of the fallback. -/
def probe_result_spec (alloc_ok : Bool) (primary fallback : Lookup) : Int :=
  if alloc_ok = false then -ENOMEM
  else
    match primary with
    | Lookup.found _ => 0
    | Lookup.failed e =>
      if (e.code : Int) = EPROBE_DEFER then -EPROBE_DEFER
      else
        match fallback with
        | Lookup.found _ => 0
        | Lookup.failed e2 => -(e2.code : Int)

/-! ## Error pointer arithmetic -/

theorem IS_ERR_ERR_PTR (e : Errno) : IS_ERR (ERR_PTR (-(e.code : Int))) = true := by
  have h1 := e.pos
  have h2 := e.le_max
  simp only [IS_ERR, ERR_PTR, WORD, MAX_ERRNO, decide_eq_true_eq] at *
  omega

theorem PTR_ERR_ERR_PTR (e : Errno) : PTR_ERR (ERR_PTR (-(e.code : Int))) = -(e.code : Int) := by
  have h1 := e.pos
  have h2 := e.le_max
  simp only [PTR_ERR, ERR_PTR, WORD, MAX_ERRNO] at *
  split <;> omega

theorem long_to_int_errno (e : Errno) : long_to_int (-(e.code : Int)) = -(e.code : Int) := by
  have h1 := e.pos
  have h2 := e.le_max
  simp only [long_to_int, MAX_ERRNO] at *
  omega

theorem IS_ERR_desc (d : gpio_desc) : IS_ERR d.addr = false := by
  have h1 := d.nonnull
  have h2 := d.valid
  simp only [IS_ERR, WORD, MAX_ERRNO, decide_eq_false_iff_not] at *
  omega

theorem valid_desc_addr (d : gpio_desc) : valid_desc d.addr = true := by
  have h1 := d.nonnull
  simp [valid_desc, IS_ERR_desc]
  omega

/-! ## Path lemmas -/

theorem probe_oom (env : Env) (pdev : platform_device) (ha : env.kzalloc_ok = false) :
    max98390_gpio_probe env pdev = { ret := -ENOMEM, pdev := pdev, trace := trace_oom } := by
  simp [max98390_gpio_probe, devm_kzalloc, ha, dev_info, World.emit, trace_oom]

theorem probe_primary (env : Env) (pdev : platform_device) (d : gpio_desc)
    (ha : env.kzalloc_ok = true)
    (hp : env.gpiod_lookup "enable" 0 gpiod_flags.GPIOD_OUT_LOW = Lookup.found d) :
    max98390_gpio_probe env pdev =
      { ret := 0, pdev := bound_pdev pdev d.addr, trace := trace_primary d } := by
  simp [max98390_gpio_probe, devm_kzalloc, devm_gpiod_get_index, platform_set_drvdata, ha, hp,
    IS_ERR_desc, probe_enable, store_enable_gpio, gpiod_set_value_cansleep, msleep, dev_info,
    World.emit, trace_primary, bound_pdev]

theorem probe_defer (env : Env) (pdev : platform_device) (e : Errno)
    (ha : env.kzalloc_ok = true)
    (hp : env.gpiod_lookup "enable" 0 gpiod_flags.GPIOD_OUT_LOW = Lookup.failed e)
    (he : (e.code : Int) = EPROBE_DEFER) :
    max98390_gpio_probe env pdev =
      { ret := -EPROBE_DEFER, pdev := bound_pdev pdev 0, trace := trace_defer e } := by
  have h1 := IS_ERR_ERR_PTR e
  have h2 : long_to_int (PTR_ERR (ERR_PTR (-(e.code : Int)))) = -EPROBE_DEFER := by
    rw [PTR_ERR_ERR_PTR, long_to_int_errno, he]
  simp [max98390_gpio_probe, devm_kzalloc, devm_gpiod_get_index, platform_set_drvdata, ha, hp,
    h1, h2, dev_info, World.emit, trace_defer, bound_pdev]

theorem probe_fallback (env : Env) (pdev : platform_device) (e : Errno) (d : gpio_desc)
    (ha : env.kzalloc_ok = true)
    (hp : env.gpiod_lookup "enable" 0 gpiod_flags.GPIOD_OUT_LOW = Lookup.failed e)
    (he : (e.code : Int) ≠ EPROBE_DEFER)
    (hf : env.gpiod_lookup "amp-enable" 0 gpiod_flags.GPIOD_OUT_LOW = Lookup.found d) :
    max98390_gpio_probe env pdev =
      { ret := 0, pdev := bound_pdev pdev d.addr, trace := trace_fallback e d } := by
  simp [max98390_gpio_probe, devm_kzalloc, devm_gpiod_get_index, platform_set_drvdata, ha, hp, hf,
    IS_ERR_ERR_PTR, PTR_ERR_ERR_PTR, long_to_int_errno, he, IS_ERR_desc, probe_enable,
    store_enable_gpio, gpiod_set_value_cansleep, msleep, dev_info, dev_err,
    World.emit, trace_fallback, bound_pdev]

theorem probe_none (env : Env) (pdev : platform_device) (e e2 : Errno)
    (ha : env.kzalloc_ok = true)
    (hp : env.gpiod_lookup "enable" 0 gpiod_flags.GPIOD_OUT_LOW = Lookup.failed e)
    (he : (e.code : Int) ≠ EPROBE_DEFER)
    (hf : env.gpiod_lookup "amp-enable" 0 gpiod_flags.GPIOD_OUT_LOW = Lookup.failed e2) :
    max98390_gpio_probe env pdev =
      { ret := -(e2.code : Int), pdev := bound_pdev pdev 0, trace := trace_none e e2 } := by
  simp [max98390_gpio_probe, devm_kzalloc, devm_gpiod_get_index, platform_set_drvdata, ha, hp, hf,
    IS_ERR_ERR_PTR, PTR_ERR_ERR_PTR, long_to_int_errno, he, dev_info, dev_err,
    World.emit, trace_none, bound_pdev]

/-- Every run of probe follows exactly one of the five paths. -/
theorem probe_cases (env : Env) (pdev : platform_device) :
    (env.kzalloc_ok = false ∧
      max98390_gpio_probe env pdev = { ret := -ENOMEM, pdev := pdev, trace := trace_oom }) ∨
    (∃ d, env.kzalloc_ok = true ∧
      env.gpiod_lookup "enable" 0 gpiod_flags.GPIOD_OUT_LOW = Lookup.found d ∧
      max98390_gpio_probe env pdev =
        { ret := 0, pdev := bound_pdev pdev d.addr, trace := trace_primary d }) ∨
    (∃ e, env.kzalloc_ok = true ∧
      env.gpiod_lookup "enable" 0 gpiod_flags.GPIOD_OUT_LOW = Lookup.failed e ∧
      (e.code : Int) = EPROBE_DEFER ∧
      max98390_gpio_probe env pdev =
        { ret := -EPROBE_DEFER, pdev := bound_pdev pdev 0, trace := trace_defer e }) ∨
    (∃ e d, env.kzalloc_ok = true ∧
      env.gpiod_lookup "enable" 0 gpiod_flags.GPIOD_OUT_LOW = Lookup.failed e ∧
      (e.code : Int) ≠ EPROBE_DEFER ∧
      env.gpiod_lookup "amp-enable" 0 gpiod_flags.GPIOD_OUT_LOW = Lookup.found d ∧
      max98390_gpio_probe env pdev =
        { ret := 0, pdev := bound_pdev pdev d.addr, trace := trace_fallback e d }) ∨
    (∃ e e2, env.kzalloc_ok = true ∧
      env.gpiod_lookup "enable" 0 gpiod_flags.GPIOD_OUT_LOW = Lookup.failed e ∧
      (e.code : Int) ≠ EPROBE_DEFER ∧
      env.gpiod_lookup "amp-enable" 0 gpiod_flags.GPIOD_OUT_LOW = Lookup.failed e2 ∧
      max98390_gpio_probe env pdev =
        { ret := -(e2.code : Int), pdev := bound_pdev pdev 0, trace := trace_none e e2 }) := by
  cases ha : env.kzalloc_ok with
  | false => exact Or.inl ⟨rfl, probe_oom env pdev ha⟩
  | true =>
    right
    cases hp : env.gpiod_lookup "enable" 0 gpiod_flags.GPIOD_OUT_LOW with
    | found d => exact Or.inl ⟨d, rfl, rfl, probe_primary env pdev d ha hp⟩
    | failed e =>
      right
      by_cases he : (e.code : Int) = EPROBE_DEFER
      · exact Or.inl ⟨e, rfl, rfl, he, probe_defer env pdev e ha hp he⟩
      · right
        cases hf : env.gpiod_lookup "amp-enable" 0 gpiod_flags.GPIOD_OUT_LOW with
        | found d => exact Or.inl ⟨e, d, rfl, rfl, he, rfl, probe_fallback env pdev e d ha hp he hf⟩
        | failed e2 => exact Or.inr ⟨e, e2, rfl, rfl, he, rfl, probe_none env pdev e e2 ha hp he hf⟩

/-- The allocation is attempted in every run, with the outcome the environment fixes. -/
theorem allocation_iff (env : Env) (pdev : platform_device) (ok : Bool) :
    allocation (max98390_gpio_probe env pdev) ok ↔ env.kzalloc_ok = ok := by
  rcases probe_cases env pdev with ⟨ha, hr⟩ | ⟨d, ha, hp, hr⟩ | ⟨e, ha, hp, he, hr⟩ |
    ⟨e, d, ha, hp, he, hf, hr⟩ | ⟨e, e2, ha, hp, he, hf, hr⟩ <;>
  · rw [hr, ha]
    simp [allocation, trace_oom, trace_primary, trace_defer, trace_fallback, trace_none, eq_comm]

/-- The primary lookup is made exactly when the allocation succeeds. -/
theorem primary_lookup_iff (env : Env) (pdev : platform_device) (o : Lookup) :
    primary_lookup (max98390_gpio_probe env pdev) o ↔
      env.kzalloc_ok = true ∧ env.gpiod_lookup "enable" 0 gpiod_flags.GPIOD_OUT_LOW = o := by
  rcases probe_cases env pdev with ⟨ha, hr⟩ | ⟨d, ha, hp, hr⟩ | ⟨e, ha, hp, he, hr⟩ |
    ⟨e, d, ha, hp, he, hf, hr⟩ | ⟨e, e2, ha, hp, he, hf, hr⟩
  · rw [hr, ha]; simp [primary_lookup, trace_oom]
  · rw [hr, ha, hp]; simp [primary_lookup, trace_primary, eq_comm]
  · rw [hr, ha, hp]; simp [primary_lookup, trace_defer, eq_comm]
  · rw [hr, ha, hp]; simp [primary_lookup, trace_fallback, eq_comm]
  · rw [hr, ha, hp]; simp [primary_lookup, trace_none, eq_comm]

/-- The fallback lookup is made exactly when the allocation succeeds and the
primary lookup fails with an errno other than `EPROBE_DEFER`. -/
theorem fallback_lookup_iff (env : Env) (pdev : platform_device) (o : Lookup) :
    fallback_lookup (max98390_gpio_probe env pdev) o ↔
      env.kzalloc_ok = true ∧
      (∃ e, env.gpiod_lookup "enable" 0 gpiod_flags.GPIOD_OUT_LOW = Lookup.failed e ∧
        (e.code : Int) ≠ EPROBE_DEFER) ∧
      env.gpiod_lookup "amp-enable" 0 gpiod_flags.GPIOD_OUT_LOW = o := by
  rcases probe_cases env pdev with ⟨ha, hr⟩ | ⟨d, ha, hp, hr⟩ | ⟨e, ha, hp, he, hr⟩ |
    ⟨e, d, ha, hp, he, hf, hr⟩ | ⟨e, e2, ha, hp, he, hf, hr⟩
  · rw [hr, ha]; simp [fallback_lookup, trace_oom]
  · rw [hr, ha, hp]; simp [fallback_lookup, trace_primary]
  · rw [hr, ha, hp]; simp [fallback_lookup, trace_defer, he]
  · rw [hr, ha, hp, hf]
    simp only [fallback_lookup, trace_fallback]
    constructor
    · intro h
      refine ⟨trivial, ⟨e, rfl, he⟩, ?_⟩
      simpa [eq_comm] using h
    · rintro ⟨-, -, h⟩
      simp [h]
  · rw [hr, ha, hp, hf]
    simp only [fallback_lookup, trace_none]
    constructor
    · intro h
      refine ⟨trivial, ⟨e, rfl, he⟩, ?_⟩
      simpa [eq_comm] using h
    · rintro ⟨-, -, h⟩
      simp [h]

/-! ## Claims about probe -/

/-- C1: every run of probe that returns 0, whatever the allocation and the
lookups did, leaves the acquired line at logical high: exactly one descriptor
was acquired, the replayed output of its line is 1 after the run, the write of
1 through `gpiod_set_value_cansleep` is in the trace, and no call after that
write sets a GPIO value or drives any line. -/
theorem C1_success_line_high (env : Env) (pdev : platform_device)
    (h : (max98390_gpio_probe env pdev).ret = 0) :
    ∃ d : gpio_desc,
      acquired (max98390_gpio_probe env pdev).trace = [d] ∧
      line_value d.addr (max98390_gpio_probe env pdev).trace = some 1 ∧
      ∃ pre post,
        (max98390_gpio_probe env pdev).trace =
          pre ++ Event.gpiod_set_value_cansleep d.addr 1 :: post ∧
        ∀ ev ∈ post, ev.is_gpio_write = false ∧ ∀ desc, ev.drives desc = none := by
  rcases probe_cases env pdev with ⟨ha, hr⟩ | ⟨d, ha, hp, hr⟩ | ⟨e, ha, hp, he, hr⟩ |
    ⟨e, d, ha, hp, he, hf, hr⟩ | ⟨e, e2, ha, hp, he, hf, hr⟩
  · rw [hr] at h
    simp [ENOMEM] at h
  · rw [hr]
    refine ⟨d, by simp [acquired, trace_primary],
      by simp [line_value, trace_primary, Event.drives, valid_desc_addr], ?_⟩
    refine ⟨[Event.log LogLevel.info "Probing MAX98390 GPIO enable driver\n" none,
        Event.kzalloc true,
        Event.gpiod_get_index "enable" 0 gpiod_flags.GPIOD_OUT_LOW (Lookup.found d)],
      [Event.log LogLevel.info "MAX98390 power GPIO set to HIGH\n" none,
        Event.msleep 10,
        Event.log LogLevel.info "MAX98390 GPIO enable driver initialized successfully\n" none],
      by simp [trace_primary], ?_⟩
    intro ev hev
    simp only [List.mem_cons, List.mem_singleton, List.not_mem_nil, or_false] at hev
    rcases hev with rfl | rfl | rfl <;> simp [Event.is_gpio_write, Event.drives]
  · rw [hr] at h
    simp [EPROBE_DEFER] at h
  · rw [hr]
    refine ⟨d, by simp [acquired, trace_fallback],
      by simp [line_value, trace_fallback, Event.drives, valid_desc_addr], ?_⟩
    refine ⟨[Event.log LogLevel.info "Probing MAX98390 GPIO enable driver\n" none,
        Event.kzalloc true,
        Event.gpiod_get_index "enable" 0 gpiod_flags.GPIOD_OUT_LOW (Lookup.failed e),
        Event.log LogLevel.err "Failed to get enable GPIO: %d\n" (some (-(e.code : Int))),
        Event.gpiod_get_index "amp-enable" 0 gpiod_flags.GPIOD_OUT_LOW (Lookup.found d)],
      [Event.log LogLevel.info "MAX98390 power GPIO set to HIGH\n" none,
        Event.msleep 10,
        Event.log LogLevel.info "MAX98390 GPIO enable driver initialized successfully\n" none],
      by simp [trace_fallback], ?_⟩
    intro ev hev
    simp only [List.mem_cons, List.mem_singleton, List.not_mem_nil, or_false] at hev
    rcases hev with rfl | rfl | rfl <;> simp [Event.is_gpio_write, Event.drives]
  · rw [hr] at h
    have h1 := e2.pos
    simp only at h
    omega

/-- C1, at the run where only `"amp-enable"` resolves. -/
theorem C1_success_line_high_witness :
    (max98390_gpio_probe env_fallback pdev_fresh).ret = 0 ∧
    ∃ d : gpio_desc,
      acquired (max98390_gpio_probe env_fallback pdev_fresh).trace = [d] ∧
      line_value d.addr (max98390_gpio_probe env_fallback pdev_fresh).trace = some 1 ∧
      ∃ pre post,
        (max98390_gpio_probe env_fallback pdev_fresh).trace =
          pre ++ Event.gpiod_set_value_cansleep d.addr 1 :: post ∧
        ∀ ev ∈ post, ev.is_gpio_write = false ∧ ∀ desc, ev.drives desc = none :=
  ⟨by decide, C1_success_line_high env_fallback pdev_fresh (by decide)⟩

/-- C2: when the allocation succeeds and the lookup of `"enable"` fails with
`EPROBE_DEFER`, probe returns `-EPROBE_DEFER`, the only lookup of the run is
the primary one (no call looks up `"amp-enable"`), no call sets a GPIO value
and no line is driven. -/
theorem C2_primary_deferred (env : Env) (pdev : platform_device) (e : Errno)
    (ha : allocation (max98390_gpio_probe env pdev) true)
    (hp : primary_lookup (max98390_gpio_probe env pdev) (Lookup.failed e))
    (he : (e.code : Int) = EPROBE_DEFER) :
    (max98390_gpio_probe env pdev).ret = -EPROBE_DEFER ∧
    (max98390_gpio_probe env pdev).trace.filter Event.is_lookup =
      [Event.gpiod_get_index "enable" 0 gpiod_flags.GPIOD_OUT_LOW (Lookup.failed e)] ∧
    (∀ ev ∈ (max98390_gpio_probe env pdev).trace, ev.is_lookup_of "amp-enable" = false) ∧
    (∀ ev ∈ (max98390_gpio_probe env pdev).trace, ev.is_gpio_write = false) ∧
    (∀ desc, line_value desc (max98390_gpio_probe env pdev).trace = none) := by
  have hk := (allocation_iff env pdev true).1 ha
  have hl := ((primary_lookup_iff env pdev _).1 hp).2
  rw [probe_defer env pdev e hk hl he]
  simp [trace_defer, Event.is_lookup, Event.is_lookup_of, Event.is_gpio_write, line_value,
    Event.drives]

/-- C2, at the run where the provider of `"enable"` is not ready. -/
theorem C2_primary_deferred_witness :
    allocation (max98390_gpio_probe env_defer pdev_fresh) true ∧
    primary_lookup (max98390_gpio_probe env_defer pdev_fresh) (Lookup.failed errno_EPROBE_DEFER) ∧
    (max98390_gpio_probe env_defer pdev_fresh).ret = -517 ∧
    (∀ ev ∈ (max98390_gpio_probe env_defer pdev_fresh).trace,
      ev.is_lookup_of "amp-enable" = false) :=
  have ha : allocation (max98390_gpio_probe env_defer pdev_fresh) true := by
    unfold allocation; decide
  have hp : primary_lookup (max98390_gpio_probe env_defer pdev_fresh)
      (Lookup.failed errno_EPROBE_DEFER) := by
    unfold primary_lookup; decide
  have hc := C2_primary_deferred env_defer pdev_fresh errno_EPROBE_DEFER ha hp (by decide)
  ⟨ha, hp, hc.1, hc.2.2.1⟩

/-- C3: when the lookup of `"enable"` fails with an errno other than
`EPROBE_DEFER`, the lookups of the run are exactly the primary one followed by
one lookup of `"amp-enable"` with index 0 and `GPIOD_OUT_LOW`: one lookup per
name, no retry; and a failure is returned only after that fallback lookup has
failed. -/
theorem C3_fallback_exactly_once (env : Env) (pdev : platform_device) (e : Errno)
    (hp : primary_lookup (max98390_gpio_probe env pdev) (Lookup.failed e))
    (he : (e.code : Int) ≠ EPROBE_DEFER) :
    ∃ o : Lookup,
      (max98390_gpio_probe env pdev).trace.filter Event.is_lookup =
        [Event.gpiod_get_index "enable" 0 gpiod_flags.GPIOD_OUT_LOW (Lookup.failed e),
         Event.gpiod_get_index "amp-enable" 0 gpiod_flags.GPIOD_OUT_LOW o] ∧
      ((max98390_gpio_probe env pdev).trace.filter (Event.is_lookup_of "amp-enable")).length = 1 ∧
      ((max98390_gpio_probe env pdev).trace.filter (Event.is_lookup_of "enable")).length = 1 ∧
      ((max98390_gpio_probe env pdev).ret ≠ 0 → ∃ e2, o = Lookup.failed e2) := by
  obtain ⟨hk, hl⟩ := (primary_lookup_iff env pdev _).1 hp
  cases hf : env.gpiod_lookup "amp-enable" 0 gpiod_flags.GPIOD_OUT_LOW with
  | found d =>
    rw [probe_fallback env pdev e d hk hl he hf]
    exact ⟨Lookup.found d, by
      simp [trace_fallback, Event.is_lookup, Event.is_lookup_of]⟩
  | failed e2 =>
    rw [probe_none env pdev e e2 hk hl he hf]
    exact ⟨Lookup.failed e2, by
      simp [trace_none, Event.is_lookup, Event.is_lookup_of]⟩

/-- C3, at the run where neither name resolves. -/
theorem C3_fallback_exactly_once_witness :
    primary_lookup (max98390_gpio_probe env_none pdev_fresh) (Lookup.failed errno_ENOENT) ∧
    ∃ o : Lookup,
      (max98390_gpio_probe env_none pdev_fresh).trace.filter Event.is_lookup =
        [Event.gpiod_get_index "enable" 0 gpiod_flags.GPIOD_OUT_LOW (Lookup.failed errno_ENOENT),
         Event.gpiod_get_index "amp-enable" 0 gpiod_flags.GPIOD_OUT_LOW o] ∧
      ((max98390_gpio_probe env_none pdev_fresh).trace.filter
        (Event.is_lookup_of "amp-enable")).length = 1 ∧
      ((max98390_gpio_probe env_none pdev_fresh).trace.filter
        (Event.is_lookup_of "enable")).length = 1 ∧
      ((max98390_gpio_probe env_none pdev_fresh).ret ≠ 0 → ∃ e2, o = Lookup.failed e2) :=
  have hp : primary_lookup (max98390_gpio_probe env_none pdev_fresh)
      (Lookup.failed errno_ENOENT) := by
    unfold primary_lookup; decide
  ⟨hp, C3_fallback_exactly_once env_none pdev_fresh errno_ENOENT hp (by decide)⟩

/-- C4: when the lookup of `"enable"` fails with `e` and the lookup of
`"amp-enable"` fails with `e2`, probe returns `-e2` (a negative errno, taken
from the fallback whatever `e` is), no call sets a GPIO value, no line is
driven and there is no delay. -/
theorem C4_both_lookups_fail (env : Env) (pdev : platform_device) (e e2 : Errno)
    (hp : primary_lookup (max98390_gpio_probe env pdev) (Lookup.failed e))
    (hf : fallback_lookup (max98390_gpio_probe env pdev) (Lookup.failed e2)) :
    (max98390_gpio_probe env pdev).ret = -(e2.code : Int) ∧
    (max98390_gpio_probe env pdev).ret < 0 ∧
    (∀ ev ∈ (max98390_gpio_probe env pdev).trace, ev.is_gpio_write = false) ∧
    (∀ desc, line_value desc (max98390_gpio_probe env pdev).trace = none) ∧
    (∀ ev ∈ (max98390_gpio_probe env pdev).trace, ev.is_delay = false) := by
  obtain ⟨hk, hl⟩ := (primary_lookup_iff env pdev _).1 hp
  obtain ⟨-, ⟨e1, hl1, he⟩, hm⟩ := (fallback_lookup_iff env pdev _).1 hf
  have hee : e1 = e := by
    rw [hl] at hl1
    injection hl1 with h
    exact h.symm
  subst hee
  rw [probe_none env pdev e1 e2 hk hl he hm]
  have h2 := e2.pos
  refine ⟨rfl, by simp only; omega, ?_, ?_, ?_⟩ <;>
    simp [trace_none, Event.is_gpio_write, Event.is_delay, line_value, Event.drives]

/-- C4, at the run where `"enable"` gives `ENOENT` and `"amp-enable"` gives
`ENODEV`: the result is `-ENODEV`. -/
theorem C4_both_lookups_fail_witness :
    primary_lookup (max98390_gpio_probe env_none pdev_fresh) (Lookup.failed errno_ENOENT) ∧
    fallback_lookup (max98390_gpio_probe env_none pdev_fresh) (Lookup.failed errno_ENODEV) ∧
    (max98390_gpio_probe env_none pdev_fresh).ret = -19 ∧
    (∀ ev ∈ (max98390_gpio_probe env_none pdev_fresh).trace, ev.is_gpio_write = false) :=
  have hp : primary_lookup (max98390_gpio_probe env_none pdev_fresh)
      (Lookup.failed errno_ENOENT) := by
    unfold primary_lookup; decide
  have hf : fallback_lookup (max98390_gpio_probe env_none pdev_fresh)
      (Lookup.failed errno_ENODEV) := by
    unfold fallback_lookup; decide
  have hc := C4_both_lookups_fail env_none pdev_fresh errno_ENOENT errno_ENODEV hp hf
  ⟨hp, hf, hc.1, hc.2.2.1⟩

/-- C6: when the lookup of `"enable"` fails with an errno other than
`EPROBE_DEFER` and the lookup of `"amp-enable"` gives the descriptor `L`, probe
returns 0, the driver data of the device holds `L` in `enable_gpio`, the only
GPIO write of the run sets `L` to 1 and the line of `L` ends at 1. -/
theorem C6_fallback_line_used (env : Env) (pdev : platform_device) (e : Errno) (L : gpio_desc)
    (hp : primary_lookup (max98390_gpio_probe env pdev) (Lookup.failed e))
    (he : (e.code : Int) ≠ EPROBE_DEFER)
    (hf : fallback_lookup (max98390_gpio_probe env pdev) (Lookup.found L)) :
    (max98390_gpio_probe env pdev).ret = 0 ∧
    (max98390_gpio_probe env pdev).pdev.drvdata =
      some { enable_gpio := L.addr, dev := pdev.dev } ∧
    (max98390_gpio_probe env pdev).trace.filter Event.is_gpio_write =
      [Event.gpiod_set_value_cansleep L.addr 1] ∧
    line_value L.addr (max98390_gpio_probe env pdev).trace = some 1 := by
  obtain ⟨hk, hl⟩ := (primary_lookup_iff env pdev _).1 hp
  obtain ⟨-, -, hm⟩ := (fallback_lookup_iff env pdev _).1 hf
  rw [probe_fallback env pdev e L hk hl he hm]
  simp [trace_fallback, bound_pdev, Event.is_gpio_write, line_value, Event.drives,
    valid_desc_addr]

/-- C6, at the run where only `"amp-enable"` resolves. -/
theorem C6_fallback_line_used_witness :
    primary_lookup (max98390_gpio_probe env_fallback pdev_fresh) (Lookup.failed errno_ENOENT) ∧
    fallback_lookup (max98390_gpio_probe env_fallback pdev_fresh) (Lookup.found desc_a) ∧
    (max98390_gpio_probe env_fallback pdev_fresh).ret = 0 ∧
    (max98390_gpio_probe env_fallback pdev_fresh).pdev.drvdata =
      some { enable_gpio := desc_a.addr, dev := pdev_fresh.dev } :=
  have hp : primary_lookup (max98390_gpio_probe env_fallback pdev_fresh)
      (Lookup.failed errno_ENOENT) := by
    unfold primary_lookup; decide
  have hf : fallback_lookup (max98390_gpio_probe env_fallback pdev_fresh)
      (Lookup.found desc_a) := by
    unfold fallback_lookup; decide
  have hc := C6_fallback_line_used env_fallback pdev_fresh errno_ENOENT desc_a hp
    (by decide) hf
  ⟨hp, hf, hc.1, hc.2.1⟩

/-- C7: when the allocation succeeds and the lookup of `"enable"` (index 0,
`GPIOD_OUT_LOW`) gives the descriptor `L`, probe returns 0 and its hardware
visible calls are exactly, in this order: the lookup of `"enable"` giving `L`,
`gpiod_set_value_cansleep(L, 1)`, `msleep(10)`. -/
theorem C7_primary_success_effects (env : Env) (pdev : platform_device) (L : gpio_desc)
    (ha : allocation (max98390_gpio_probe env pdev) true)
    (hp : primary_lookup (max98390_gpio_probe env pdev) (Lookup.found L)) :
    (max98390_gpio_probe env pdev).ret = 0 ∧
    hw_effects (max98390_gpio_probe env pdev).trace =
      [Event.gpiod_get_index "enable" 0 gpiod_flags.GPIOD_OUT_LOW (Lookup.found L),
       Event.gpiod_set_value_cansleep L.addr 1,
       Event.msleep 10] := by
  have hk := (allocation_iff env pdev true).1 ha
  have hl := ((primary_lookup_iff env pdev _).1 hp).2
  rw [probe_primary env pdev L hk hl]
  simp [hw_effects, trace_primary, Event.is_hw, Event.is_lookup, Event.is_gpio_write,
    Event.is_delay]

/-- C7, at the run where `"enable"` resolves. -/
theorem C7_primary_success_effects_witness :
    allocation (max98390_gpio_probe env_primary pdev_fresh) true ∧
    primary_lookup (max98390_gpio_probe env_primary pdev_fresh) (Lookup.found desc_a) ∧
    (max98390_gpio_probe env_primary pdev_fresh).ret = 0 ∧
    hw_effects (max98390_gpio_probe env_primary pdev_fresh).trace =
      [Event.gpiod_get_index "enable" 0 gpiod_flags.GPIOD_OUT_LOW (Lookup.found desc_a),
       Event.gpiod_set_value_cansleep desc_a.addr 1,
       Event.msleep 10] :=
  have ha : allocation (max98390_gpio_probe env_primary pdev_fresh) true := by
    unfold allocation; decide
  have hp : primary_lookup (max98390_gpio_probe env_primary pdev_fresh)
      (Lookup.found desc_a) := by
    unfold primary_lookup; decide
  have hc := C7_primary_success_effects env_primary pdev_fresh desc_a ha hp
  ⟨ha, hp, hc.1, hc.2⟩

/-- C8: when the allocation fails, probe returns `-ENOMEM`, the device is left
as it was (no driver data is set), and the only calls of the run are the entry
log line and the failed allocation: no lookup, no GPIO write, no delay. -/
theorem C8_allocation_failure (env : Env) (pdev : platform_device)
    (ha : allocation (max98390_gpio_probe env pdev) false) :
    (max98390_gpio_probe env pdev).ret = -ENOMEM ∧
    (max98390_gpio_probe env pdev).pdev = pdev ∧
    (max98390_gpio_probe env pdev).trace =
      [Event.log LogLevel.info "Probing MAX98390 GPIO enable driver\n" none,
       Event.kzalloc false] ∧
    hw_effects (max98390_gpio_probe env pdev).trace = [] ∧
    (∀ ev ∈ (max98390_gpio_probe env pdev).trace,
      ev.is_lookup = false ∧ ev.is_gpio_write = false ∧ ev.is_delay = false) := by
  have hk := (allocation_iff env pdev false).1 ha
  rw [probe_oom env pdev hk]
  simp [trace_oom, hw_effects, Event.is_hw, Event.is_lookup, Event.is_gpio_write,
    Event.is_delay]

/-- C8, at the run where the allocation fails on a device without driver data. -/
theorem C8_allocation_failure_witness :
    allocation (max98390_gpio_probe env_oom pdev_fresh) false ∧
    (max98390_gpio_probe env_oom pdev_fresh).ret = -12 ∧
    (max98390_gpio_probe env_oom pdev_fresh).pdev.drvdata = none ∧
    hw_effects (max98390_gpio_probe env_oom pdev_fresh).trace = [] :=
  have ha : allocation (max98390_gpio_probe env_oom pdev_fresh) false := by
    unfold allocation; decide
  have hc := C8_allocation_failure env_oom pdev_fresh ha
  ⟨ha, hc.1, by rw [hc.2.1]; rfl, hc.2.2.2.1⟩

/-- C9: in every run of probe at most one lookup succeeds; a fallback lookup is
made only after the primary lookup has failed, so a primary lookup that
succeeds is followed by no lookup of `"amp-enable"`; and when probe returns 0
exactly one descriptor was acquired and it is the one held in `enable_gpio` of
the driver data. -/
theorem C9_at_most_one_line (env : Env) (pdev : platform_device) :
    (acquired (max98390_gpio_probe env pdev).trace).length ≤ 1 ∧
    (∀ o, fallback_lookup (max98390_gpio_probe env pdev) o →
      ∃ e, primary_lookup (max98390_gpio_probe env pdev) (Lookup.failed e)) ∧
    (∀ d, primary_lookup (max98390_gpio_probe env pdev) (Lookup.found d) →
      ∀ ev ∈ (max98390_gpio_probe env pdev).trace, ev.is_lookup_of "amp-enable" = false) ∧
    ((max98390_gpio_probe env pdev).ret = 0 →
      ∃ d, acquired (max98390_gpio_probe env pdev).trace = [d] ∧
        (max98390_gpio_probe env pdev).pdev.drvdata =
          some { enable_gpio := d.addr, dev := pdev.dev }) := by
  refine ⟨?_, ?_, ?_, ?_⟩
  · rcases probe_cases env pdev with ⟨ha, hr⟩ | ⟨d, ha, hp, hr⟩ | ⟨e, ha, hp, he, hr⟩ |
      ⟨e, d, ha, hp, he, hf, hr⟩ | ⟨e, e2, ha, hp, he, hf, hr⟩ <;>
    · rw [hr]
      simp [acquired, trace_oom, trace_primary, trace_defer, trace_fallback, trace_none]
  · intro o ho
    obtain ⟨hk, ⟨e, hl, -⟩, -⟩ := (fallback_lookup_iff env pdev o).1 ho
    exact ⟨e, (primary_lookup_iff env pdev _).2 ⟨hk, hl⟩⟩
  · intro d hd
    obtain ⟨hk, hl⟩ := (primary_lookup_iff env pdev _).1 hd
    rw [probe_primary env pdev d hk hl]
    simp [trace_primary, Event.is_lookup_of]
  · intro h
    rcases probe_cases env pdev with ⟨ha, hr⟩ | ⟨d, ha, hp, hr⟩ | ⟨e, ha, hp, he, hr⟩ |
      ⟨e, d, ha, hp, he, hf, hr⟩ | ⟨e, e2, ha, hp, he, hf, hr⟩
    · rw [hr] at h
      simp [ENOMEM] at h
    · rw [hr]
      exact ⟨d, by simp [acquired, trace_primary], by simp [bound_pdev]⟩
    · rw [hr] at h
      simp [EPROBE_DEFER] at h
    · rw [hr]
      exact ⟨d, by simp [acquired, trace_fallback], by simp [bound_pdev]⟩
    · rw [hr] at h
      have h1 := e2.pos
      simp only at h
      omega

/-- C9, at the run where `"enable"` resolves: one descriptor acquired, held in
the driver data, and no lookup of `"amp-enable"`. -/
theorem C9_at_most_one_line_witness :
    primary_lookup (max98390_gpio_probe env_primary pdev_fresh) (Lookup.found desc_a) ∧
    (max98390_gpio_probe env_primary pdev_fresh).ret = 0 ∧
    (∀ ev ∈ (max98390_gpio_probe env_primary pdev_fresh).trace,
      ev.is_lookup_of "amp-enable" = false) ∧
    (∃ d, acquired (max98390_gpio_probe env_primary pdev_fresh).trace = [d] ∧
      (max98390_gpio_probe env_primary pdev_fresh).pdev.drvdata =
        some { enable_gpio := d.addr, dev := pdev_fresh.dev }) :=
  have hp : primary_lookup (max98390_gpio_probe env_primary pdev_fresh)
      (Lookup.found desc_a) := by
    unfold primary_lookup; decide
  have h0 : (max98390_gpio_probe env_primary pdev_fresh).ret = 0 := by decide
  have hc := C9_at_most_one_line env_primary pdev_fresh
  ⟨hp, h0, hc.2.2.1 desc_a hp, hc.2.2.2 h0⟩

/-- C10: the result of probe is the function `probe_result_spec` of the
allocation outcome, the primary lookup outcome and the fallback lookup
outcome; probe returns 0 exactly when the allocation succeeds and either the
primary lookup succeeds or it fails with an errno other than `EPROBE_DEFER`
and the fallback lookup succeeds; and every run that reaches the set high step
or the delay returns 0. -/
theorem C10_probe_result (env : Env) (pdev : platform_device) :
    (max98390_gpio_probe env pdev).ret =
      probe_result_spec env.kzalloc_ok
        (env.gpiod_lookup "enable" 0 gpiod_flags.GPIOD_OUT_LOW)
        (env.gpiod_lookup "amp-enable" 0 gpiod_flags.GPIOD_OUT_LOW) ∧
    ((max98390_gpio_probe env pdev).ret = 0 ↔
      env.kzalloc_ok = true ∧
        ((∃ d, env.gpiod_lookup "enable" 0 gpiod_flags.GPIOD_OUT_LOW = Lookup.found d) ∨
         (∃ e d, env.gpiod_lookup "enable" 0 gpiod_flags.GPIOD_OUT_LOW = Lookup.failed e ∧
            (e.code : Int) ≠ EPROBE_DEFER ∧
            env.gpiod_lookup "amp-enable" 0 gpiod_flags.GPIOD_OUT_LOW = Lookup.found d))) ∧
    (∀ ev ∈ (max98390_gpio_probe env pdev).trace,
      ev.is_gpio_write = true ∨ ev.is_delay = true → (max98390_gpio_probe env pdev).ret = 0) := by
  rcases probe_cases env pdev with ⟨ha, hr⟩ | ⟨d, ha, hp, hr⟩ | ⟨e, ha, hp, he, hr⟩ |
    ⟨e, d, ha, hp, he, hf, hr⟩ | ⟨e, e2, ha, hp, he, hf, hr⟩
  · rw [hr, ha]
    simp [probe_result_spec, ENOMEM, trace_oom, Event.is_gpio_write, Event.is_delay]
  · rw [hr, ha, hp]
    simp [probe_result_spec]
  · rw [hr, ha, hp]
    simp [probe_result_spec, he, EPROBE_DEFER, trace_defer, Event.is_gpio_write,
      Event.is_delay]
  · rw [hr, ha, hp, hf]
    simp [probe_result_spec, he]
  · rw [hr, ha, hp, hf]
    have h2 := e2.pos
    have h3 : ¬ (e2.code = 0) := by omega
    simp [probe_result_spec, he, h3, trace_none, Event.is_gpio_write, Event.is_delay]

/-- C10, at the run where only `"amp-enable"` resolves (the set high step is
reached and the result is 0) and at the run where neither name resolves (the
result is the one the specification function gives for two failed lookups). -/
theorem C10_probe_result_witness :
    Event.gpiod_set_value_cansleep desc_a.addr 1 ∈
      (max98390_gpio_probe env_fallback pdev_fresh).trace ∧
    (max98390_gpio_probe env_fallback pdev_fresh).ret = 0 ∧
    (max98390_gpio_probe env_none pdev_fresh).ret =
      probe_result_spec true (Lookup.failed errno_ENOENT) (Lookup.failed errno_ENODEV) ∧
    (max98390_gpio_probe env_none pdev_fresh).ret = -19 :=
  have hm : Event.gpiod_set_value_cansleep desc_a.addr 1 ∈
      (max98390_gpio_probe env_fallback pdev_fresh).trace := by decide
  ⟨hm, (C10_probe_result env_fallback pdev_fresh).2.2 _ hm (Or.inl rfl),
    (C10_probe_result env_none pdev_fresh).1, by decide⟩

/-! ## Claims about remove -/

/-- C5, as the code has it: remove makes no GPIO write and leaves the device
untouched in every state; it returns 0 whenever the device has driver data,
whether a descriptor is stored in it or not, in particular after every run of
probe that got past the allocation (successful or failed in the lookups);
without driver data it reads `enable_gpio` through a NULL pointer and does not
return. -/
theorem C5_remove_keeps_power (pdev : platform_device) :
    (∀ ev ∈ (max98390_gpio_remove pdev).trace, ev.is_gpio_write = false) ∧
    (∀ desc, line_value desc (max98390_gpio_remove pdev).trace = none) ∧
    (max98390_gpio_remove pdev).pdev = pdev ∧
    (∀ data, pdev.drvdata = some data → (max98390_gpio_remove pdev).ret = some 0) ∧
    (∀ env pdev0, pdev = (max98390_gpio_probe env pdev0).pdev →
      allocation (max98390_gpio_probe env pdev0) true →
      (max98390_gpio_remove pdev).ret = some 0) ∧
    (pdev.drvdata = none → (max98390_gpio_remove pdev).ret = none) := by
  have key : ∀ data, pdev.drvdata = some data →
      (max98390_gpio_remove pdev).ret = some 0 := by
    intro data hd
    simp [max98390_gpio_remove, platform_get_drvdata, hd]
  refine ⟨?_, ?_, ?_, key, ?_, ?_⟩
  · cases hd : pdev.drvdata with
    | none => simp [max98390_gpio_remove, platform_get_drvdata, hd]
    | some data =>
      by_cases hg : data.enable_gpio = 0 <;>
        simp [max98390_gpio_remove, platform_get_drvdata, hd, hg, dev_info, World.emit,
          Event.is_gpio_write]
  · intro desc
    cases hd : pdev.drvdata with
    | none => simp [max98390_gpio_remove, platform_get_drvdata, hd, line_value]
    | some data =>
      by_cases hg : data.enable_gpio = 0 <;>
        simp [max98390_gpio_remove, platform_get_drvdata, hd, hg, dev_info, World.emit,
          line_value, Event.drives]
  · cases hd : pdev.drvdata with
    | none => simp [max98390_gpio_remove, platform_get_drvdata, hd]
    | some data =>
      by_cases hg : data.enable_gpio = 0 <;>
        simp [max98390_gpio_remove, platform_get_drvdata, hd, hg, dev_info, World.emit]
  · intro env pdev0 hpd ha
    have hk := (allocation_iff env pdev0 true).1 ha
    rcases probe_cases env pdev0 with ⟨hb, hr⟩ | ⟨d, hb, hp, hr⟩ | ⟨e, hb, hp, he, hr⟩ |
      ⟨e, d, hb, hp, he, hf, hr⟩ | ⟨e, e2, hb, hp, he, hf, hr⟩
    · rw [hk] at hb
      exact absurd hb (by decide)
    all_goals
      rw [hr] at hpd
      exact key _ (by rw [hpd]; rfl)
  · intro hd
    simp [max98390_gpio_remove, platform_get_drvdata, hd]

/-- C5 as amended, at the device left by a probe whose two lookups failed
(driver data present, no descriptor stored): remove returns 0 and writes
nothing. -/
theorem C5_remove_keeps_power_witness :
    allocation (max98390_gpio_probe env_none pdev_fresh) true ∧
    (max98390_gpio_probe env_none pdev_fresh).pdev.drvdata =
      some { enable_gpio := 0, dev := pdev_fresh.dev } ∧
    (max98390_gpio_remove (max98390_gpio_probe env_none pdev_fresh).pdev).ret = some 0 ∧
    (∀ ev ∈ (max98390_gpio_remove (max98390_gpio_probe env_none pdev_fresh).pdev).trace,
      ev.is_gpio_write = false) :=
  have ha : allocation (max98390_gpio_probe env_none pdev_fresh) true := by
    unfold allocation; decide
  have hc := C5_remove_keeps_power (max98390_gpio_probe env_none pdev_fresh).pdev
  ⟨ha, by decide, hc.2.2.2.2.1 env_none pdev_fresh rfl ha, hc.1⟩

/-- C5 fails as stated: on a device without driver data, both one that was
never probed and one whose probe ended in `-ENOMEM`, remove does not return 0. -/
theorem C5_remove_without_state_counterexample :
    (max98390_gpio_probe env_oom pdev_fresh).ret = -12 ∧
    (max98390_gpio_probe env_oom pdev_fresh).pdev.drvdata = none ∧
    (max98390_gpio_remove (max98390_gpio_probe env_oom pdev_fresh).pdev).ret ≠ some 0 ∧
    (max98390_gpio_remove pdev_fresh).ret ≠ some 0 := by
  decide

end Max98390
